import Mathlib

/-!
Verification development for the InsightX frontend (React SPA).
Shallow embedding of the API client, chat widget state, context values and
render guards, with theorems checking the specification's claims.
-/

/-- JSON values as produced by `JSON.parse` / sent by `JSON.stringify`. -/
inductive Json where
  | null
  | bool (b : Bool)
  | num (n : Int)
  | str (s : String)
  | arr (elems : List Json)
  | obj (fields : List (String × Json))
deriving Repr

/-- JS truthiness of a JSON value (`if (v)`): null, false, 0 and "" are falsy. -/
def Json.truthy : Json → Bool
  | .null => false
  | .bool b => b
  | .num n => n != 0
  | .str s => s != ""
  | .arr _ => true
  | .obj _ => true

mutual
/-- JS `String(v)` coercion, as used by `new Error(v)` for its message. -/
def jsStringOfJson : Json → String
  | .null => "null"
  | .bool b => if b then "true" else "false"
  | .num n => toString n
  | .str s => s
  | .arr xs => jsStringOfList xs
  | .obj _ => "[object Object]"

/-- JS array-to-string: elements joined by ",", null elements become "". -/
def jsStringOfList : List Json → String
  | [] => ""
  | [x] => jsStringOfElem x
  | x :: xs => jsStringOfElem x ++ "," ++ jsStringOfList xs

/-- One array element under `Array.prototype.join`: null stringifies to "". -/
def jsStringOfElem : Json → String
  | .null => ""
  | x => jsStringOfJson x
end

/-- A JS runtime value as seen by property reads and destructuring:
either a JSON-like data value, a function value, or `undefined`. -/
inductive JsVal where
  | undefined
  | json (j : Json)
  | fn (name : String)
deriving Repr

/-- JS truthiness of a runtime value (`undefined` is falsy, functions truthy). -/
def JsVal.truthy : JsVal → Bool
  | .undefined => false
  | .json j => j.truthy
  | .fn _ => true

/-- Field lookup on a JS object literal, as performed by destructuring:
a missing key reads as `undefined`. -/
def lookupField (fields : List (String × JsVal)) (key : String) : JsVal :=
  match fields.find? (fun p => p.1 == key) with
  | some p => p.2
  | none => .undefined

/-- Key lookup in a parsed JSON object. -/
def lookupJson (fields : List (String × Json)) (key : String) : Option Json :=
  (fields.find? (fun p => p.1 == key)).map (fun p => p.2)

/-- Errors a modelled JS expression can throw besides `Error` objects. -/
inductive ThrownKind where
  | errorObj (message : String)   -- `throw new Error(message)`
  | typeError                     -- e.g. reading a property of null/undefined
  | parseError                    -- rejection of `response.json()`
deriving Repr, DecidableEq

/-- Property read `v.key` on a parsed JSON value: throws a TypeError on null,
reads `undefined` on primitives, and looks the key up on objects. -/
def jsGetProp (v : Json) (key : String) : Except ThrownKind JsVal :=
  match v with
  | .null => .error .typeError
  | .obj fields =>
      .ok (match lookupJson fields key with
           | some j => .json j
           | none => .undefined)
  | _ => .ok .undefined

/-! ## Embedding of `src/Frontend/src/services/api.js`

Each client function is modelled as: (the list of HTTP requests it issues,
and its outcome as a function of the HTTP response to that request).
`BASE_URL` (`import.meta.env.VITE_API_URL || "http://localhost:8000"`) is
passed in as the `base` parameter. -/

/-- An HTTP request as assembled by a `fetch(...)` call in `api.js`. -/
structure ApiRequest where
  method : String
  url : String
  contentType : Option String
  body : Option Json
deriving Repr

/-- An HTTP response as observed through `fetch`: its status code, and the
result of `response.json()` (which can reject on an unparseable body). -/
structure HttpResponse where
  status : Nat
  parsed : Except Unit Json

/-- `response.ok`: status in the inclusive range 200–299. -/
def HttpResponse.ok (r : HttpResponse) : Bool :=
  200 ≤ r.status && r.status < 300

/-- What an `async` API client function settles to. -/
inductive FetchOutcome where
  | resolved (v : Json)
  | thrown (e : ThrownKind)
deriving Repr

/-- The default `VITE_API_URL` fallback from `api.js`. -/
def defaultBaseUrl : String := "http://localhost:8000"

/-- JS truthiness of a `string | null | undefined` value: null, undefined and
the empty string are falsy. -/
def optTruthy : Option String → Bool
  | none => false
  | some s => s != ""

/-- JSON serialisation of a `string | null` session id field. -/
def jsonOfSession : Option String → Json
  | none => .null
  | some s => .str s

/-- The request assembled by `sendChatMessage(message, sessionId)`:
POST `{BASE_URL}/api/v1/chat` with a JSON body `{message, session_id}`. -/
def chatRequest (base message : String) (sessionId : Option String) : ApiRequest :=
  { method := "POST"
    url := base ++ "/api/v1/chat"
    contentType := some "application/json"
    body := some (.obj [("message", .str message), ("session_id", jsonOfSession sessionId)]) }

/-- Outcome of `sendChatMessage` given the response: on `response.ok` it
resolves with the parsed body; otherwise it parses the body (defaulting to
`{}` on parse failure), reads `error.detail`, and throws
`new Error(error.detail || "API error: <status>")`. -/
def sendChatOutcome (resp : HttpResponse) : FetchOutcome :=
  if resp.ok then
    match resp.parsed with
    | .ok j => .resolved j
    | .error _ => .thrown .parseError
  else
    let errorBody : Json := match resp.parsed with
      | .ok j => j
      | .error _ => .obj []
    match jsGetProp errorBody "detail" with
    | .error t => .thrown t
    | .ok d =>
        .thrown (.errorObj
          (if d.truthy then
            (match d with
             | .json j => jsStringOfJson j
             | .fn _ => "function"
             | .undefined => "undefined")
           else "API error: " ++ toString resp.status))

/-- `sendChatMessage(message, sessionId)` from `api.js`. -/
def sendChatMessage (base message : String) (sessionId : Option String)
    (resp : HttpResponse) : List ApiRequest × FetchOutcome :=
  ([chatRequest base message sessionId], sendChatOutcome resp)

/-- Shared response handling of the GET/DELETE helpers in `api.js`:
`if (!response.ok) throw new Error(\x60API error: ${response.status}\x60);
return response.json();`. -/
def simpleOutcome (resp : HttpResponse) : FetchOutcome :=
  if resp.ok then
    match resp.parsed with
    | .ok j => .resolved j
    | .error _ => .thrown .parseError
  else
    .thrown (.errorObj ("API error: " ++ toString resp.status))

/-- `getAnalyticsSummary()` from `api.js`. -/
def getAnalyticsSummary (base : String) (resp : HttpResponse) :
    List ApiRequest × FetchOutcome :=
  ([{ method := "GET", url := base ++ "/api/v1/analytics/summary",
      contentType := none, body := none }], simpleOutcome resp)

/-- `getCategoryBreakdown()` from `api.js`. -/
def getCategoryBreakdown (base : String) (resp : HttpResponse) :
    List ApiRequest × FetchOutcome :=
  ([{ method := "GET", url := base ++ "/api/v1/analytics/categories",
      contentType := none, body := none }], simpleOutcome resp)

/-- `fetchChatHistory(sessionId)` from `api.js`: a falsy session id resolves
immediately with `{ history: [] }` and issues no request at all. -/
def fetchChatHistory (base : String) (sessionId : Option String)
    (resp : HttpResponse) : List ApiRequest × FetchOutcome :=
  if optTruthy sessionId then
    ([{ method := "GET",
        url := base ++ "/api/v1/history/" ++ sessionId.getD "",
        contentType := none, body := none }], simpleOutcome resp)
  else
    ([], .resolved (.obj [("history", .arr [])]))

/-- `deleteHistoryItem(sessionId, index)` from `api.js`. -/
def deleteHistoryItem (base sessionId : String) (index : Nat)
    (resp : HttpResponse) : List ApiRequest × FetchOutcome :=
  ([{ method := "DELETE",
      url := base ++ "/api/v1/history/" ++ sessionId ++ "/" ++ toString index,
      contentType := none, body := none }], simpleOutcome resp)

/-- One invocation of an API client function, with its arguments. -/
inductive ApiCall where
  | chat (message : String) (sessionId : Option String)
  | summary
  | categories
  | history (sessionId : Option String)
  | deleteItem (sessionId : String) (index : Nat)

/-- Dispatch an API call to the corresponding client function. -/
def apiCallRun (base : String) (c : ApiCall) (resp : HttpResponse) :
    List ApiRequest × FetchOutcome :=
  match c with
  | .chat m sid => sendChatMessage base m sid resp
  | .summary => getAnalyticsSummary base resp
  | .categories => getCategoryBreakdown base resp
  | .history sid => fetchChatHistory base sid resp
  | .deleteItem sid idx => deleteHistoryItem base sid idx resp

/-- A request targets one of the five REST operations the spec lists. -/
def isFiveOp (base : String) (req : ApiRequest) : Prop :=
  (req.method = "POST" ∧ req.url = base ++ "/api/v1/chat")
  ∨ (req.method = "GET" ∧ req.url = base ++ "/api/v1/analytics/summary")
  ∨ (req.method = "GET" ∧ req.url = base ++ "/api/v1/analytics/categories")
  ∨ (req.method = "GET" ∧ ∃ s : String, req.url = base ++ "/api/v1/history/" ++ s)
  ∨ (req.method = "DELETE" ∧
      ∃ (s : String) (i : Nat),
        req.url = base ++ "/api/v1/history/" ++ s ++ "/" ++ toString i)

/-! ## Backend/SDK call sites across the application

One record per place in the frontend that awaits a network or auth promise,
with how its caller disposes of a failure. Transcribed from the source:

* `AskMeAnything.jsx` `sendMessage`: `try { await sendChatMessage ... } catch
  (err) { setMessages(... "Connection Error" bubble ...) }` — inline error text.
* `AskMeAnything.jsx` session-restore effect: `fetchChatHistory(sessionId)
  .then(data => ...)` with no rejection handler.
* `AskMeAnything.jsx` history-button `onClick`: `await fetchChatHistory(...)`
  in an async handler with no try/catch.
* `AskMeAnything.jsx` `handleDeleteHistory`: `catch (err) { console.error(...) }`.
* `Dashboard.jsx` KPI effect: `.catch(err => { setKpiError(err.message); ... })`
  — rendered as an inline warning banner.
* `Dashboard.jsx` `ExecutiveActionSimulator.handleSimulate`:
  `catch (e) { console.error(e) }`.
* `Dashboard.jsx` `RiskHeatmap` effect: `.catch(() => setLoading(false))`
  — failure discarded without inspection.
* `Analytics` page KPI effect: `.catch(() => setLoading(false))`.
* `BenchmarkPerformance` effect: `fetchBenchmarkData().then(res =>
  setData(res)).finally(() => setLoading(false))` — no rejection handler.
* `ExecutiveSimulator` page `handleSimulate`: `catch (e) { console.error(e) }`.
* `BusinessAdvisor.jsx` `handleAsk`: `catch (e) { console.error(e) }`.
* `LoginPage.jsx` / `SignupPage.jsx` / `ForgotPasswordPage.jsx` /
  `ResetPasswordPage` handlers: `catch (error) { toast.error(error.message) }`.
* `DashboardLayout.jsx` `handleSignOut`: `await signOut()` — the returned
  `{ error }` object is never inspected.
* `AuthContext.jsx` `getSession`: the returned `{ error }` is never inspected.
-/

/-- How a caller disposes of a failed network/SDK promise. -/
inductive FailureHandling where
  | surfacedToast    -- caught and shown via `toast.error`
  | surfacedInline   -- caught and rendered as inline error text
  | loggedOnly       -- caught, but only `console.error`
  | ignored          -- caught (or returned) and discarded without inspection
  | uncaught         -- no rejection handler attached at all
deriving Repr, DecidableEq

/-- Whether a call goes to the analytics backend via the `api` service module
or to the third-party auth SDK. -/
inductive CallKind where
  | backendApi
  | authSdk
deriving Repr, DecidableEq

/-- A network/auth call site: the enclosing caller, the function invoked,
which backend it belongs to, its failure disposition, and how many times the
caller re-issues the request on failure. -/
structure NetworkCallSite where
  caller : String
  operation : String
  kind : CallKind
  handling : FailureHandling
  retries : Nat
deriving Repr, DecidableEq

/-- The named exports of `src/Frontend/src/services/api.js`. -/
def apiJsExportedFunctions : List String :=
  ["sendChatMessage", "getAnalyticsSummary", "getCategoryBreakdown",
   "fetchChatHistory", "deleteHistoryItem"]

/-- Every site in the frontend that awaits a backend or auth-SDK promise. -/
def appNetworkCallSites : List NetworkCallSite :=
  [⟨"AskMeAnything.sendMessage", "sendChatMessage", .backendApi, .surfacedInline, 0⟩,
   ⟨"AskMeAnything.sessionRestoreEffect", "fetchChatHistory", .backendApi, .uncaught, 0⟩,
   ⟨"AskMeAnything.historyButtonClick", "fetchChatHistory", .backendApi, .uncaught, 0⟩,
   ⟨"AskMeAnything.handleDeleteHistory", "deleteHistoryItem", .backendApi, .loggedOnly, 0⟩,
   ⟨"Dashboard.kpiEffect", "getAnalyticsSummary", .backendApi, .surfacedInline, 0⟩,
   ⟨"Dashboard.ExecutiveActionSimulator.handleSimulate", "simulateAction", .backendApi, .loggedOnly, 0⟩,
   ⟨"Dashboard.RiskHeatmap.effect", "fetchHeatmapData", .backendApi, .ignored, 0⟩,
   ⟨"Analytics.kpiEffect", "getAnalyticsSummary", .backendApi, .ignored, 0⟩,
   ⟨"BenchmarkPerformance.fetchEffect", "fetchBenchmarkData", .backendApi, .uncaught, 0⟩,
   ⟨"ExecutiveSimulator.handleSimulate", "simulateAction", .backendApi, .loggedOnly, 0⟩,
   ⟨"BusinessAdvisor.handleAsk", "askBusinessAdvisor", .backendApi, .loggedOnly, 0⟩,
   ⟨"LoginPage.handleLogin.password", "signIn", .authSdk, .surfacedToast, 0⟩,
   ⟨"LoginPage.handleLogin.otp", "signInWithOtp", .authSdk, .surfacedToast, 0⟩,
   ⟨"LoginPage.handleVerifyOtp", "verifyOtp", .authSdk, .surfacedToast, 0⟩,
   ⟨"LoginPage.handleGoogleLogin", "signInWithGoogle", .authSdk, .surfacedToast, 0⟩,
   ⟨"SignupPage.handleSignUp", "signUp", .authSdk, .surfacedToast, 0⟩,
   ⟨"SignupPage.handleVerifyOtp", "verifyOtp", .authSdk, .surfacedToast, 0⟩,
   ⟨"ForgotPasswordPage.handleReset", "resetPasswordForEmail", .authSdk, .surfacedToast, 0⟩,
   ⟨"ResetPasswordPage.handleUpdate", "updateUser", .authSdk, .surfacedToast, 0⟩,
   ⟨"DashboardLayout.handleSignOut", "signOut", .authSdk, .ignored, 0⟩,
   ⟨"AuthContext.getSession", "getSession", .authSdk, .ignored, 0⟩]

/-! ## Embedding of the chat widget (`AskMeAnything.jsx`) -/

/-- A chat message as kept in the widget's `messages` state (fields that the
session/error logic touches). -/
structure ChatMsg where
  role : String
  content : String
deriving Repr, DecidableEq

/-- The inline bubble appended by `sendMessage`'s catch branch. -/
def connectionErrorContent (errMessage : String) : String :=
  "⚠️ **Connection Error**\n\nCouldn\x27t reach the analytics server. " ++
  "Please make sure the backend is running on \x60localhost:8000\x60.\n\n_Error: " ++
  errMessage ++ "_"

/-- `sendMessage`'s catch branch: the user bubble was already appended; a
failure appends an assistant bubble with inline error text (no retry). -/
def sendMessageOnFailure (messages : List ChatMsg) (query errMessage : String) :
    List ChatMsg :=
  (messages ++ [{ role := "user", content := query }]) ++
    [{ role := "assistant", content := connectionErrorContent errMessage }]

/-- The widget's session-related state: the `sessionId` React state
(`string | null`) and the `localStorage` entry under
`"insightx_chat_session"`. -/
structure SessionState where
  sessionId : Option String
  storage : Option String
deriving Repr, DecidableEq

/-- The `localStorage` key used by the widget. -/
def sessionStorageKey : String := "insightx_chat_session"

/-- Initial state: `useState(() => localStorage.getItem("insightx_chat_session"))`. -/
def initSession (stored : Option String) : SessionState :=
  { sessionId := stored, storage := stored }

/-- The `useEffect([sessionId])` persistence effect: `if (sessionId)
localStorage.setItem(key, sessionId); else localStorage.removeItem(key)`. -/
def sessionEffect (s : SessionState) : SessionState :=
  if optTruthy s.sessionId then { s with storage := s.sessionId }
  else { s with storage := none }

/-- The session id forwarded by `sendChatMessage(query, sessionId)`. -/
def chatRequestSession (s : SessionState) : Option String :=
  s.sessionId

/-- Events that change the widget's `sessionId` state. -/
inductive WidgetEvent where
  | receive (respSessionId : Option String)  -- a chat response arrived
  | reset                                    -- `handleReset` ran

/-- State update for one event, before the persistence effect re-runs:
`if (!sessionId && result.session_id) setSessionId(result.session_id)` on a
response, `setSessionId(null)` on reset. -/
def applyEvent (s : SessionState) (e : WidgetEvent) : SessionState :=
  match e with
  | .receive r =>
      if !optTruthy s.sessionId && optTruthy r then { s with sessionId := r }
      else s
  | .reset => { s with sessionId := none }

/-- One settled step: the event fires, then the `[sessionId]` effect re-runs. -/
def stepSettled (s : SessionState) (e : WidgetEvent) : SessionState :=
  sessionEffect (applyEvent s e)

/-- The widget's session state after mounting with the given stored value and
processing a sequence of events (each step left settled). -/
def runWidget (stored : Option String) (events : List WidgetEvent) : SessionState :=
  events.foldl stepSettled (sessionEffect (initSession stored))

/-! ## Embedding of `TypewriterText` (`AskMeAnything.jsx`)

The effect resets `idx` to 0 and, for non-empty text, starts an interval.
Each tick: if `idx >= text.length` it clears the interval, marks the render
done and calls `onComplete`; otherwise it advances to
`end = min(idx + chunkSize, text.length)` and displays `text.slice(0, end)`.
Text is modelled as a list of UTF-16 code units. -/

/-- `chunkSize = Math.max(1, Math.floor(text.length / 80))`. -/
def chunkSize (len : Nat) : Nat := max 1 (len / 80)

/-- The typewriter's state: cursor, displayed slice, whether the interval was
cleared, and how many times `onComplete` has fired. -/
@[ext]
structure TWState where
  idx : Nat
  displayed : List Char
  done : Bool
  onCompleteCalls : Nat
deriving Repr, DecidableEq

/-- State after the effect body ran: cursor 0, empty display. -/
def twInit : TWState :=
  { idx := 0, displayed := [], done := false, onCompleteCalls := 0 }

/-- One interval tick of `TypewriterText`. -/
def twTick (text : List Char) (s : TWState) : TWState :=
  if s.done then s
  else if text.length ≤ s.idx then
    { s with done := true, onCompleteCalls := s.onCompleteCalls + 1 }
  else
    let e := min (s.idx + chunkSize text.length) text.length
    { s with idx := e, displayed := text.take e }

/-- The state after `n` interval ticks. -/
def twRun (text : List Char) (n : Nat) : TWState :=
  (twTick text)^[n] twInit

/-- Ticks needed to display all of the text: `⌈len / chunkSize⌉`. -/
def twDisplayTicks (len : Nat) : Nat :=
  (len + chunkSize len - 1) / chunkSize len

/-! ## Embedding of `AnalyticsContext.jsx` and page renders -/

/-- The object `AnalyticsProvider` passes as the context value:
`{ lastAnalysis, updateAnalysis }` — nothing else. -/
def analyticsContextValue (lastAnalysis : JsVal) : List (String × JsVal) :=
  [("lastAnalysis", lastAnalysis), ("updateAnalysis", .fn "updateAnalysis")]

/-- JS call of a value: only functions are callable, anything else throws a
TypeError. -/
def callJsVal (v : JsVal) : Except ThrownKind Unit :=
  match v with
  | .fn _ => .ok ()
  | _ => .error .typeError

/-- The dashboard-intent branch of `sendMessage`:
`if (result.intent === "dashboard" && result.data) { updateReport(result.data);
setTimeout(() => { navigate("/dashboard/auto-report"); setIsOpen(false) } ...) }`.
Returns the navigations performed, or the value thrown. -/
def dashboardIntentBranch (updateReportVal : JsVal) (intent : JsVal)
    (data : JsVal) : Except ThrownKind (List String) :=
  let isDashboard : Bool := match intent with
    | .json (.str s) => s == "dashboard"
    | _ => false
  if isDashboard && data.truthy then
    match callJsVal updateReportVal with
    | .error t => .error t
    | .ok _ => .ok ["/dashboard/auto-report"]
  else
    .ok []

/-- Which branch `AutoReport` rendered. -/
inductive ReportBranch where
  | emptyState
  | reportView
deriving Repr, DecidableEq

/-- `AutoReport`: `if (!lastReport) return <EmptyState/>` — otherwise it
destructures `{ kpis, trend, breakdowns, title, insights }` and renders the
report. Returns the branch and the fields read off `lastReport`. -/
def autoReportRender (lastReport : JsVal) : ReportBranch × List String :=
  if lastReport.truthy then
    (.reportView, ["kpis", "trend", "breakdowns", "title", "insights"])
  else
    (.emptyState, [])

/-! ## Embedding of `AuthContext.jsx` and `DashboardLayout.jsx` -/

/-- The `value` object `AuthProvider` provides: the six operations and `user`.
There is no `loading` entry. -/
def authContextValue (user : Option String) : List (String × JsVal) :=
  [("signUp", .fn "signUp"),
   ("signIn", .fn "signIn"),
   ("signInWithOtp", .fn "signInWithOtp"),
   ("verifyOtp", .fn "verifyOtp"),
   ("signInWithGoogle", .fn "signInWithGoogle"),
   ("signOut", .fn "signOut"),
   ("user", match user with
            | some id => .json (.obj [("id", .str id)])
            | none => .json .null)]

/-- `AuthProvider` renders `{!loading && children}`: children only mount once
the initial session check finished. -/
def authProviderRendersChildren (loading : Bool) : Bool :=
  !loading

/-- What `DashboardLayout` returns from a render. -/
inductive LayoutView where
  | authSpinner       -- the `if (loading)` "Authenticating..." screen
  | nullView          -- `if (!user) return null`
  | dashboardContent  -- sidebar, topbar and children
deriving Repr, DecidableEq

/-- One render of `DashboardLayout` given the destructured `loading` value and
`user`: the returned view, and the navigations issued by the
`useEffect(() => { if (!loading && !user) navigate("/login") })` effect. -/
def dashboardLayoutRender (loadingVal : JsVal) (user : Option String) :
    LayoutView × List String :=
  let navigations := if !loadingVal.truthy && user.isNone then ["/login"] else []
  let view :=
    if loadingVal.truthy then LayoutView.authSpinner
    else if user.isNone then LayoutView.nullView
    else LayoutView.dashboardContent
  (view, navigations)

/-! ## Embedding of the auth operations (`AuthContext.jsx` value) -/

/-- The auth-SDK methods the frontend invokes. -/
inductive SdkMethod where
  | signUp
  | signInWithPassword
  | signInWithOtp
  | verifyOtp
  | signInWithOAuth
  | signOut
deriving Repr, DecidableEq

/-- One call into the auth SDK: the method and its argument, if any. -/
structure SdkCall where
  method : SdkMethod
  arg : Option Json
deriving Repr

/-- An invocation of one of the six operations the context value exposes,
with the arguments the caller supplied (`origin` is
`window.location.origin`). -/
inductive AuthOp where
  | signUp (data : Json)
  | signIn (data : Json)
  | signInWithOtp (email : String)
  | verifyOtp (email token : String) (type? : Option String)
  | signInWithGoogle (origin : String)
  | signOut
deriving Repr

/-- The single SDK call each operation performs, exactly as built in the
source (`signUp: (data) => supabase.auth.signUp(data)`, etc.; `verifyOtp`
defaults `type` to `'email'`; `signInWithGoogle` fixes provider `google` and
`redirectTo: origin + "/dashboard"`). -/
def authContextCall : AuthOp → SdkCall
  | .signUp d => ⟨.signUp, some d⟩
  | .signIn d => ⟨.signInWithPassword, some d⟩
  | .signInWithOtp email => ⟨.signInWithOtp, some (.obj [("email", .str email)])⟩
  | .verifyOtp email token ty =>
      ⟨.verifyOtp, some (.obj [("email", .str email), ("token", .str token),
                               ("type", .str (ty.getD "email"))])⟩
  | .signInWithGoogle origin =>
      ⟨.signInWithOAuth,
       some (.obj [("provider", .str "google"),
                   ("options", .obj [("redirectTo", .str (origin ++ "/dashboard"))])])⟩
  | .signOut => ⟨.signOut, none⟩

/-- Running an operation against an SDK: the context value's arrow functions
return the SDK promise directly, with no wrapping, inspection or retry. -/
def authOpRun {R : Type} (sdk : SdkCall → R) (op : AuthOp) : R :=
  sdk (authContextCall op)

/-- The SDK calls one operation performs, in order. -/
def authOpTrace (op : AuthOp) : List SdkCall :=
  [authContextCall op]

/-- Modelled from the spec: the correspondence between each context operation
and the provider-SDK method the spec says it delegates to ("sign up, sign in
with password, sign in with OTP, verify OTP, OAuth sign-in, sign out"). -/
def spec_correspondingMethod : AuthOp → SdkMethod
  | .signUp _ => .signUp
  | .signIn _ => .signInWithPassword
  | .signInWithOtp _ => .signInWithOtp
  | .verifyOtp _ _ _ => .verifyOtp
  | .signInWithGoogle _ => .signInWithOAuth
  | .signOut => .signOut

/-! ## Helper lemmas -/

theorem sessionEffect_sessionId (s : SessionState) :
    (sessionEffect s).sessionId = s.sessionId := by
  unfold sessionEffect
  split <;> rfl

theorem sessionEffect_storage_sync (s : SessionState) :
    (sessionEffect s).storage
      = if optTruthy (sessionEffect s).sessionId then (sessionEffect s).sessionId
        else none := by
  rw [sessionEffect_sessionId]
  unfold sessionEffect
  by_cases h : optTruthy s.sessionId = true <;> simp [h]

theorem foldl_stepSettled_storage_sync (es : List WidgetEvent) (t : SessionState) :
    (es.foldl stepSettled (sessionEffect t)).storage
      = if optTruthy (es.foldl stepSettled (sessionEffect t)).sessionId
        then (es.foldl stepSettled (sessionEffect t)).sessionId else none := by
  induction es generalizing t with
  | nil => exact sessionEffect_storage_sync t
  | cons f fs ihf =>
      rw [List.foldl_cons]
      exact ihf (applyEvent (sessionEffect t) f)

theorem runWidget_storage_sync (stored : Option String) (events : List WidgetEvent) :
    (runWidget stored events).storage
      = if optTruthy (runWidget stored events).sessionId
        then (runWidget stored events).sessionId else none :=
  foldl_stepSettled_storage_sync events (initSession stored)

theorem chunkSize_pos (len : Nat) : 0 < chunkSize len := by
  unfold chunkSize
  omega

theorem twRun_char (text : List Char) (n : Nat) :
    (twRun text n).idx = min (n * chunkSize text.length) text.length ∧
    (twRun text n).displayed = text.take (twRun text n).idx ∧
    (twRun text n).done
      = decide (0 < n ∧ text.length ≤ (n - 1) * chunkSize text.length) ∧
    (twRun text n).onCompleteCalls
      = if 0 < n ∧ text.length ≤ (n - 1) * chunkSize text.length then 1 else 0 := by
  induction n with
  | zero => simp [twRun, twInit]
  | succ n ih =>
      obtain ⟨h1, h2, h3, h4⟩ := ih
      have hstep : twRun text (n + 1) = twTick text (twRun text n) :=
        Function.iterate_succ_apply' (twTick text) n twInit
      by_cases hdone : (twRun text n).done = true
      · -- interval already cleared: the state is frozen
        have hP : 0 < n ∧ text.length ≤ (n - 1) * chunkSize text.length := by
          rw [h3] at hdone
          exact of_decide_eq_true hdone
        have hb1 : (n - 1) * chunkSize text.length ≤ n * chunkSize text.length :=
          Nat.mul_le_mul_right _ (by omega)
        have hb2 : n * chunkSize text.length ≤ (n + 1) * chunkSize text.length :=
          Nat.mul_le_mul_right _ (by omega)
        have hlen1 : text.length ≤ n * chunkSize text.length := le_trans hP.2 hb1
        have hlen2 : text.length ≤ (n + 1) * chunkSize text.length := le_trans hlen1 hb2
        have hP' : 0 < n + 1 ∧ text.length ≤ (n + 1 - 1) * chunkSize text.length := by
          constructor
          · omega
          · simpa using hlen1
        rw [hstep, twTick, if_pos hdone]
        refine ⟨?_, h2, ?_, ?_⟩
        · rw [h1, min_eq_right hlen1, min_eq_right hlen2]
        · rw [h3, decide_eq_true hP, decide_eq_true hP']
        · rw [h4, if_pos hP, if_pos hP']
      · have hP : ¬(0 < n ∧ text.length ≤ (n - 1) * chunkSize text.length) := by
          intro hcon
          rw [h3, decide_eq_true hcon] at hdone
          exact hdone rfl
        by_cases hreach : text.length ≤ (twRun text n).idx
        · -- the cursor has reached the end: this tick completes the animation
          have hlen1 : text.length ≤ n * chunkSize text.length := by
            rw [h1] at hreach
            omega
          have hb2 : n * chunkSize text.length ≤ (n + 1) * chunkSize text.length :=
            Nat.mul_le_mul_right _ (by omega)
          have hP' : 0 < n + 1 ∧ text.length ≤ (n + 1 - 1) * chunkSize text.length := by
            constructor
            · omega
            · simpa using hlen1
          have hidx : (twRun text n).idx = text.length := by
            rw [h1]
            omega
          rw [hstep, twTick, if_neg hdone, if_pos hreach]
          refine ⟨?_, ?_, ?_, ?_⟩
          · simp only [hidx, min_eq_right (le_trans hlen1 hb2)]
          · simpa [hidx] using h2
          · simp only [decide_eq_true hP']
          · rw [h4, if_neg hP, if_pos hP']
        · -- ordinary advancing tick
          have hlt : n * chunkSize text.length < text.length := by
            rw [h1] at hreach
            omega
          have hidx : (twRun text n).idx = n * chunkSize text.length := by
            rw [h1]
            omega
          have hsucc : n * chunkSize text.length + chunkSize text.length
              = (n + 1) * chunkSize text.length := (Nat.succ_mul n _).symm
          have hP' : ¬(0 < n + 1 ∧ text.length ≤ (n + 1 - 1) * chunkSize text.length) := by
            intro hcon
            have := hcon.2
            simp only [Nat.add_sub_cancel] at this
            omega
          rw [hstep, twTick, if_neg hdone, if_neg hreach]
          refine ⟨?_, ?_, ?_, ?_⟩
          · simp only [hidx, hsucc]
          · simp only [hidx, hsucc]
          · simp only [decide_eq_false hP', h3, decide_eq_false hP]
          · rw [h4, if_neg hP, if_neg hP']

theorem twDisplayTicks_bounds (len : Nat) (h : 0 < len) :
    0 < twDisplayTicks len ∧
    len ≤ twDisplayTicks len * chunkSize len ∧
    (twDisplayTicks len - 1) * chunkSize len < len := by
  have hc : 0 < chunkSize len := chunkSize_pos len
  have hdm := Nat.div_add_mod (len + chunkSize len - 1) (chunkSize len)
  have hmod : (len + chunkSize len - 1) % chunkSize len < chunkSize len :=
    Nat.mod_lt _ hc
  have hN1 : 0 < twDisplayTicks len := by
    unfold twDisplayTicks
    exact (Nat.le_div_iff_mul_le hc).mpr (by omega)
  obtain ⟨K, hK⟩ : ∃ K, twDisplayTicks len = K + 1 := ⟨twDisplayTicks len - 1, by omega⟩
  have hdm' : chunkSize len * K + chunkSize len
        + (len + chunkSize len - 1) % chunkSize len
      = len + chunkSize len - 1 := by
    have hmulK : chunkSize len * twDisplayTicks len
        = chunkSize len * K + chunkSize len := by
      rw [hK, Nat.mul_succ]
    have hNdef : twDisplayTicks len = (len + chunkSize len - 1) / chunkSize len := rfl
    rw [← hNdef] at hdm
    omega
  have hmul : twDisplayTicks len * chunkSize len
      = chunkSize len * K + chunkSize len := by
    rw [hK, Nat.succ_mul, Nat.mul_comm]
  have hmul2 : (twDisplayTicks len - 1) * chunkSize len = chunkSize len * K := by
    rw [hK, Nat.add_sub_cancel, Nat.mul_comm]
  refine ⟨hN1, ?_, ?_⟩ <;> omega

theorem twRun_frozen (text : List Char) (h : text ≠ []) (m : Nat)
    (hm : twDisplayTicks text.length + 1 ≤ m) :
    twRun text m = twRun text (twDisplayTicks text.length + 1) := by
  have hlen : 0 < text.length := List.length_pos.mpr h
  obtain ⟨hN1, hNc, _⟩ := twDisplayTicks_bounds text.length hlen
  obtain ⟨h1m, h2m, h3m, h4m⟩ := twRun_char text m
  obtain ⟨h1, h2, h3, h4⟩ := twRun_char text (twDisplayTicks text.length + 1)
  have hlem : text.length ≤ m * chunkSize text.length :=
    le_trans hNc (Nat.mul_le_mul_right _ (by omega))
  have hleN : text.length ≤ (twDisplayTicks text.length + 1) * chunkSize text.length :=
    le_trans hNc (Nat.mul_le_mul_right _ (by omega))
  have hlem1 : text.length ≤ (m - 1) * chunkSize text.length :=
    le_trans hNc (Nat.mul_le_mul_right _ (by omega))
  have hidxm : (twRun text m).idx = text.length := by
    rw [h1m, min_eq_right hlem]
  have hidxN : (twRun text (twDisplayTicks text.length + 1)).idx = text.length := by
    rw [h1, min_eq_right hleN]
  have hPm : 0 < m ∧ text.length ≤ (m - 1) * chunkSize text.length := ⟨by omega, hlem1⟩
  have hPN : 0 < twDisplayTicks text.length + 1 ∧
      text.length ≤ (twDisplayTicks text.length + 1 - 1) * chunkSize text.length := by
    constructor
    · omega
    · simpa using hNc
  ext
  · rw [hidxm, hidxN]
  · rw [h2m, h2, hidxm, hidxN]
  · rw [h3m, h3, decide_eq_true hPm, decide_eq_true hPN]
  · rw [h4m, h4, if_pos hPm, if_pos hPN]

/-! ## Claim theorems -/

/-- C5: whenever the auth state has finished loading and there is no
authenticated user, `DashboardLayout` returns null and navigates to
`/login`; dashboard content is never shown to an unauthenticated visitor
(during the initial session check `AuthProvider` does not even mount the
layout, and the `loading` value the layout destructures off the context is
always `undefined`, so the guard reduces to the user check). -/
theorem dashboardLayout_unauthenticated_guard (user : Option String)
    (h : user = none) :
    authProviderRendersChildren true = false ∧
    lookupField (authContextValue user) "loading" = JsVal.undefined ∧
    dashboardLayoutRender (lookupField (authContextValue user) "loading") user
      = (LayoutView.nullView, ["/login"]) ∧
    ∀ lv : JsVal, (dashboardLayoutRender lv user).1 ≠ LayoutView.dashboardContent := by
  subst h
  refine ⟨rfl, rfl, rfl, ?_⟩
  intro lv
  by_cases hlv : lv.truthy = true <;> simp [dashboardLayoutRender, hlv]

/-- Witness for C5 at the concrete unauthenticated state. -/
theorem dashboardLayout_unauthenticated_guard_witness :
    authProviderRendersChildren true = false ∧
    lookupField (authContextValue none) "loading" = JsVal.undefined ∧
    dashboardLayoutRender (lookupField (authContextValue none) "loading") none
      = (LayoutView.nullView, ["/login"]) ∧
    ∀ lv : JsVal, (dashboardLayoutRender lv none).1 ≠ LayoutView.dashboardContent :=
  dashboardLayout_unauthenticated_guard none rfl

/-- C6: the object provided by `AnalyticsProvider` has exactly the fields
`lastAnalysis` and `updateAnalysis`; destructuring `lastReport` or
`updateReport` off it yields `undefined`, so `AutoReport` always takes its
empty-state branch, and the chat widget's dashboard-intent branch, which
calls `updateReport(result.data)`, throws a TypeError. -/
theorem analyticsContext_missing_report_fields (lastAnalysis data : JsVal)
    (hdata : data.truthy = true) :
    (analyticsContextValue lastAnalysis).map Prod.fst
      = ["lastAnalysis", "updateAnalysis"] ∧
    lookupField (analyticsContextValue lastAnalysis) "lastReport" = JsVal.undefined ∧
    lookupField (analyticsContextValue lastAnalysis) "updateReport" = JsVal.undefined ∧
    autoReportRender (lookupField (analyticsContextValue lastAnalysis) "lastReport")
      = (ReportBranch.emptyState, []) ∧
    dashboardIntentBranch
        (lookupField (analyticsContextValue lastAnalysis) "updateReport")
        (.json (.str "dashboard")) data
      = .error .typeError := by
  refine ⟨rfl, rfl, rfl, rfl, ?_⟩
  simp [dashboardIntentBranch, lookupField, analyticsContextValue, hdata, callJsVal]

/-- Witness for C6 with a concrete truthy `result.data`. -/
theorem analyticsContext_missing_report_fields_witness :
    (analyticsContextValue (.json .null)).map Prod.fst
      = ["lastAnalysis", "updateAnalysis"] ∧
    lookupField (analyticsContextValue (.json .null)) "lastReport" = JsVal.undefined ∧
    lookupField (analyticsContextValue (.json .null)) "updateReport" = JsVal.undefined ∧
    autoReportRender (lookupField (analyticsContextValue (.json .null)) "lastReport")
      = (ReportBranch.emptyState, []) ∧
    dashboardIntentBranch
        (lookupField (analyticsContextValue (.json .null)) "updateReport")
        (.json (.str "dashboard")) (.json (.obj []))
      = .error .typeError :=
  analyticsContext_missing_report_fields (.json .null) (.json (.obj [])) rfl

/-- C7: every API client function issues at most one HTTP request per
invocation, and the set of requests it issues does not depend on the
response — a failed or slow request is never re-issued. -/
theorem apiClient_no_retry :
    ∀ (base : String) (c : ApiCall) (resp : HttpResponse),
      (apiCallRun base c resp).1.length ≤ 1 ∧
      ∀ resp2 : HttpResponse, (apiCallRun base c resp).1 = (apiCallRun base c resp2).1 := by
  intro base c resp
  constructor
  · cases c <;>
      simp [apiCallRun, sendChatMessage, getAnalyticsSummary, getCategoryBreakdown,
            fetchChatHistory, deleteHistoryItem] <;>
      split <;> simp
  · intro resp2
    cases c <;>
      simp [apiCallRun, sendChatMessage, getAnalyticsSummary, getCategoryBreakdown,
            fetchChatHistory, deleteHistoryItem] <;>
      split <;> simp

/-- C8: `AutoReport` renders the empty state and reads no report field when
`lastReport` is null or undefined; the report view (which destructures
`kpis`, `trend`, `breakdowns`, `title`, `insights`) is rendered only when
`lastReport` is present. -/
theorem autoReport_empty_state_guard (v : JsVal)
    (h : v = .json .null ∨ v = .undefined) :
    autoReportRender v = (ReportBranch.emptyState, []) ∧
    (∀ w : JsVal, (autoReportRender w).1 = ReportBranch.reportView →
      w ≠ .json .null ∧ w ≠ .undefined) ∧
    (∀ w : JsVal, w.truthy = true →
      autoReportRender w
        = (ReportBranch.reportView, ["kpis", "trend", "breakdowns", "title", "insights"])) := by
  refine ⟨?_, ?_, ?_⟩
  · rcases h with h | h <;> subst h <;> rfl
  · intro w hw
    constructor <;> rintro rfl <;> revert hw <;> decide
  · intro w hw
    simp [autoReportRender, hw]

/-- Witness for C8 at `lastReport = null`. -/
theorem autoReport_empty_state_guard_witness :
    autoReportRender (.json .null) = (ReportBranch.emptyState, []) ∧
    (∀ w : JsVal, (autoReportRender w).1 = ReportBranch.reportView →
      w ≠ .json .null ∧ w ≠ .undefined) ∧
    (∀ w : JsVal, w.truthy = true →
      autoReportRender w
        = (ReportBranch.reportView, ["kpis", "trend", "breakdowns", "title", "insights"])) :=
  autoReport_empty_state_guard (.json .null) (Or.inl rfl)

/-- C9: each auth operation the context value exposes performs exactly one
SDK call, returns its result unmodified for every possible SDK behaviour,
targets the SDK method the spec names as its counterpart, and forwards the
caller-supplied payload verbatim where one is supplied (`verifyOtp` defaults
`type` to `'email'`; `signInWithGoogle` fixes the google provider and the
`/dashboard` redirect). -/
theorem authContext_pure_delegation :
    ∀ (R : Type) (sdk : SdkCall → R) (op : AuthOp) (d : Json)
      (email token origin : String) (ty : Option String),
      authOpRun sdk op = sdk (authContextCall op) ∧
      authOpTrace op = [authContextCall op] ∧
      (authOpTrace op).length = 1 ∧
      (authContextCall op).method = spec_correspondingMethod op ∧
      authContextCall (.signUp d) = ⟨.signUp, some d⟩ ∧
      authContextCall (.signIn d) = ⟨.signInWithPassword, some d⟩ ∧
      authContextCall (.signInWithOtp email)
        = ⟨.signInWithOtp, some (.obj [("email", .str email)])⟩ ∧
      authContextCall (.verifyOtp email token ty)
        = ⟨.verifyOtp, some (.obj [("email", .str email), ("token", .str token),
                                   ("type", .str (ty.getD "email"))])⟩ ∧
      authContextCall (.signInWithGoogle origin)
        = ⟨.signInWithOAuth,
           some (.obj [("provider", .str "google"),
                       ("options", .obj [("redirectTo", .str (origin ++ "/dashboard"))])])⟩ ∧
      authContextCall .signOut = ⟨.signOut, none⟩ := by
  intro R sdk op d email token origin ty
  refine ⟨rfl, rfl, rfl, ?_, rfl, rfl, rfl, rfl, rfl, rfl⟩
  cases op <;> rfl

/-- C1 counterexample: the claim that the five exported REST operations are
the only backend contracts consumed is false as stated — `Dashboard`'s
simulator invokes `simulateAction` from the api service module, which is not
among its exports (so the set of consumed backend operation names is not
contained in the five). -/
theorem c1_undefined_api_functions_invoked :
    (⟨"Dashboard.ExecutiveActionSimulator.handleSimulate", "simulateAction",
      CallKind.backendApi, FailureHandling.loggedOnly, 0⟩ : NetworkCallSite)
      ∈ appNetworkCallSites ∧
    "simulateAction" ∉ apiJsExportedFunctions ∧
    ¬ ∀ s ∈ appNetworkCallSites,
        s.kind = CallKind.backendApi → s.operation ∈ apiJsExportedFunctions := by
  decide

/-- C1 (amended): every HTTP request the API client can actually issue
targets one of the five REST operations, but components additionally invoke
four api-module names (`simulateAction`, `fetchHeatmapData`,
`fetchBenchmarkData`, `askBusinessAdvisor`) that `api.js` never defines —
those invocations reference missing exports and can issue no request — and
the exported `getCategoryBreakdown` is never consumed by any component. -/
theorem apiClient_five_operations :
    (∀ (base : String) (c : ApiCall) (resp : HttpResponse) (req : ApiRequest),
      req ∈ (apiCallRun base c resp).1 → isFiveOp base req) ∧
    ((appNetworkCallSites.filter
        (fun s => s.kind == CallKind.backendApi
          && !(apiJsExportedFunctions.contains s.operation))).map
        (fun s => s.operation)
      = ["simulateAction", "fetchHeatmapData", "fetchBenchmarkData",
         "simulateAction", "askBusinessAdvisor"]) ∧
    ("getCategoryBreakdown" ∈ apiJsExportedFunctions ∧
     "getCategoryBreakdown" ∉ appNetworkCallSites.map (fun s => s.operation)) := by
  refine ⟨?_, by decide, by decide, by decide⟩
  intro base c resp req hreq
  cases c with
  | chat m sid =>
      simp [apiCallRun, sendChatMessage] at hreq
      subst hreq
      exact Or.inl ⟨rfl, rfl⟩
  | summary =>
      simp [apiCallRun, getAnalyticsSummary] at hreq
      subst hreq
      exact Or.inr (Or.inl ⟨rfl, rfl⟩)
  | categories =>
      simp [apiCallRun, getCategoryBreakdown] at hreq
      subst hreq
      exact Or.inr (Or.inr (Or.inl ⟨rfl, rfl⟩))
  | history sid =>
      simp only [apiCallRun] at hreq
      unfold fetchChatHistory at hreq
      split at hreq
      · simp at hreq
        subst hreq
        exact Or.inr (Or.inr (Or.inr (Or.inl ⟨rfl, sid.getD "", rfl⟩)))
      · simp at hreq
  | deleteItem sid idx =>
      simp [apiCallRun, deleteHistoryItem] at hreq
      subst hreq
      exact Or.inr (Or.inr (Or.inr (Or.inr ⟨rfl, sid, idx, rfl⟩)))

/-- C2 counterexample: not every network failure is caught and surfaced —
the benchmark-performance fetch effect attaches no rejection handler at all,
so its rejection escapes uncaught. -/
theorem c2_uncaught_rejection_exists :
    (⟨"BenchmarkPerformance.fetchEffect", "fetchBenchmarkData",
      CallKind.backendApi, FailureHandling.uncaught, 0⟩ : NetworkCallSite)
      ∈ appNetworkCallSites ∧
    ¬ ∀ s ∈ appNetworkCallSites,
        s.handling = FailureHandling.surfacedToast
        ∨ s.handling = FailureHandling.surfacedInline := by
  decide

/-- C2 (amended): no caller ever retries a failed call, and failures split
into four dispositions: chat send and dashboard-KPI failures surface inline
and the auth-page handlers surface toasts; three history/benchmark sites
attach no rejection handler (their rejections escape uncaught); the
remaining callers catch failures only to log or silently ignore them. The
chat widget's catch branch appends exactly one inline connection-error
bubble. -/
theorem failure_disposition_no_retry :
    (∀ s ∈ appNetworkCallSites, s.retries = 0) ∧
    ((appNetworkCallSites.filter
        (fun s => s.handling == FailureHandling.uncaught)).map
        (fun s => s.caller)
      = ["AskMeAnything.sessionRestoreEffect", "AskMeAnything.historyButtonClick",
         "BenchmarkPerformance.fetchEffect"]) ∧
    ((appNetworkCallSites.filter
        (fun s => s.handling == FailureHandling.surfacedToast
          || s.handling == FailureHandling.surfacedInline)).map
        (fun s => s.caller)
      = ["AskMeAnything.sendMessage", "Dashboard.kpiEffect",
         "LoginPage.handleLogin.password", "LoginPage.handleLogin.otp",
         "LoginPage.handleVerifyOtp", "LoginPage.handleGoogleLogin",
         "SignupPage.handleSignUp", "SignupPage.handleVerifyOtp",
         "ForgotPasswordPage.handleReset", "ResetPasswordPage.handleUpdate"]) ∧
    ((appNetworkCallSites.filter
        (fun s => s.handling == FailureHandling.loggedOnly
          || s.handling == FailureHandling.ignored)).map
        (fun s => s.caller)
      = ["AskMeAnything.handleDeleteHistory",
         "Dashboard.ExecutiveActionSimulator.handleSimulate",
         "Dashboard.RiskHeatmap.effect", "Analytics.kpiEffect",
         "ExecutiveSimulator.handleSimulate", "BusinessAdvisor.handleAsk",
         "DashboardLayout.handleSignOut", "AuthContext.getSession"]) ∧
    (∀ (messages : List ChatMsg) (query errMessage : String),
      sendMessageOnFailure messages query errMessage
        = messages ++ [{ role := "user", content := query },
                       { role := "assistant",
                         content := connectionErrorContent errMessage }]) := by
  refine ⟨by decide, by decide, by decide, by decide, ?_⟩
  intro messages query errMessage
  simp [sendMessageOnFailure]

/-- C3 counterexample: for a non-ok response whose body is
`{"detail": ""}`, the thrown error's message is the fallback
`"API error: 500"`, not the present-but-empty `detail` field — the code
tests `error.detail` for truthiness, not presence. -/
theorem c3_empty_detail_falls_back :
    (sendChatMessage defaultBaseUrl "hi" none
        ⟨500, .ok (.obj [("detail", .str "")])⟩).2
      = .thrown (.errorObj ("API error: 500")) ∧
    (sendChatMessage defaultBaseUrl "hi" none
        ⟨500, .ok (.obj [("detail", .str "")])⟩).2
      ≠ .thrown (.errorObj "") := by
  constructor
  · rfl
  · intro hcon
    have h1 : (sendChatMessage defaultBaseUrl "hi" none
        ⟨500, .ok (.obj [("detail", .str "")])⟩).2
      = .thrown (.errorObj ("API error: 500")) := rfl
    rw [h1] at hcon
    injection hcon with h2
    injection h2 with h3
    exact absurd h3 (by decide)

/-- C3 (amended): `sendChatMessage(m, s)` issues exactly one POST to
`{BASE_URL}/api/v1/chat` with JSON content type and body
`{message: m, session_id: s}`; on an ok response it resolves with the parsed
body unmodified; on a non-ok response it throws an Error whose message is
the body's `detail` field when the parsed body is an object with a
non-empty-string `detail`, and `"API error: <status>"` when `detail` is
empty, absent, or the body fails to parse. -/
theorem sendChatMessage_contract :
    ∀ (base message : String) (sid : Option String) (resp : HttpResponse)
      (j : Json) (fields : List (String × Json)) (d : String),
      ((sendChatMessage base message sid resp).1
        = [{ method := "POST", url := base ++ "/api/v1/chat",
             contentType := some "application/json",
             body := some (.obj [("message", .str message),
                                 ("session_id", jsonOfSession sid)]) }]) ∧
      (resp.ok = true → resp.parsed = .ok j →
        (sendChatMessage base message sid resp).2 = .resolved j) ∧
      (resp.ok = false → resp.parsed = .ok (.obj fields) →
        lookupJson fields "detail" = some (.str d) → d ≠ "" →
        (sendChatMessage base message sid resp).2 = .thrown (.errorObj d)) ∧
      (resp.ok = false → resp.parsed = .ok (.obj fields) →
        lookupJson fields "detail" = some (.str "") →
        (sendChatMessage base message sid resp).2
          = .thrown (.errorObj ("API error: " ++ toString resp.status))) ∧
      (resp.ok = false → resp.parsed = .ok (.obj fields) →
        lookupJson fields "detail" = none →
        (sendChatMessage base message sid resp).2
          = .thrown (.errorObj ("API error: " ++ toString resp.status))) ∧
      (resp.ok = false → resp.parsed = .error () →
        (sendChatMessage base message sid resp).2
          = .thrown (.errorObj ("API error: " ++ toString resp.status))) := by
  intro base message sid resp j fields d
  refine ⟨rfl, ?_, ?_, ?_, ?_, ?_⟩
  · intro hok hp
    simp [sendChatMessage, sendChatOutcome, hok, hp]
  · intro hok hp hl hd
    simp [sendChatMessage, sendChatOutcome, hok, hp, jsGetProp, hl,
          Json.truthy, jsStringOfJson, hd]
    intro hfalse
    simp [JsVal.truthy, Json.truthy] at hfalse
    exact absurd hfalse hd
  · intro hok hp hl
    simp [sendChatMessage, sendChatOutcome, hok, hp, jsGetProp, hl, Json.truthy]
    intro habs
    simp [JsVal.truthy, Json.truthy] at habs
  · intro hok hp hl
    simp [sendChatMessage, sendChatOutcome, hok, hp, jsGetProp, hl, JsVal.truthy]
  · intro hok hp
    simp [sendChatMessage, sendChatOutcome, hok, hp, jsGetProp, lookupJson,
          JsVal.truthy]

/-- C4 counterexample: mounting the widget with an empty string stored under
`insightx_chat_session` yields a reachable state whose `sessionId` is
non-null (`""`), yet the persistence effect removes the storage key instead
of holding that id — the effect tests `sessionId` for truthiness, not for
null. -/
theorem c4_empty_session_desync :
    (runWidget (some "") []).sessionId = some "" ∧
    (runWidget (some "") []).sessionId ≠ none ∧
    (runWidget (some "") []).storage ≠ some "" ∧
    (runWidget (some "") []).storage = none := by
  decide

/-- C4 (amended, with JS truthiness in place of null checks): in every
reachable settled state, the storage key holds the session id exactly when
the id is truthy (non-null and non-empty) and is removed when it is falsy;
every chat request forwards the current `sessionId` verbatim; a response's
`session_id` is assigned exactly when the current id is falsy and the
response's id is truthy; and a reset always clears the id. -/
theorem sessionState_truthy_sync :
    ∀ (stored : Option String) (events : List WidgetEvent),
      ((runWidget stored events).storage
        = if optTruthy (runWidget stored events).sessionId
          then (runWidget stored events).sessionId else none) ∧
      (chatRequestSession (runWidget stored events)
        = (runWidget stored events).sessionId) ∧
      (∀ r : Option String,
        (applyEvent (runWidget stored events) (.receive r)).sessionId
          = if !optTruthy (runWidget stored events).sessionId && optTruthy r
            then r else (runWidget stored events).sessionId) ∧
      (applyEvent (runWidget stored events) .reset).sessionId = none := by
  intro stored events
  refine ⟨runWidget_storage_sync stored events, rfl, ?_, rfl⟩
  intro r
  simp only [applyEvent]
  by_cases hcond : (!optTruthy (runWidget stored events).sessionId && optTruthy r) = true
  · rw [if_pos hcond, if_pos hcond]
  · rw [if_neg hcond, if_neg hcond]

set_option maxRecDepth 4000 in
/-- C10 counterexample: with the two-character text `"hi"` (`chunkSize` 1,
`⌈len/chunkSize⌉ = 2`) the full text is displayed after 2 ticks but
`onComplete` has not yet fired and the interval is still live; it fires on
tick 3. With a 161-character text (`chunkSize` 2) the 81st tick advances the
cursor by 1, not by `chunkSize`. -/
theorem c10_completion_lags_a_tick :
    (chunkSize 2 = 1 ∧ twDisplayTicks 2 = 2) ∧
    (twRun ['h', 'i'] 2).displayed = ['h', 'i'] ∧
    (twRun ['h', 'i'] 2).onCompleteCalls = 0 ∧
    (twRun ['h', 'i'] 2).done = false ∧
    (twRun ['h', 'i'] 3).onCompleteCalls = 1 ∧
    (chunkSize 161 = 2 ∧
     (twRun (List.replicate 161 'a') 81).idx
       - (twRun (List.replicate 161 'a') 80).idx = 1) := by
  refine ⟨by decide, by decide, by decide, by decide, by decide, by decide, ?_⟩
  obtain ⟨h81, -, -, -⟩ := twRun_char (List.replicate 161 'a') 81
  obtain ⟨h80, -, -, -⟩ := twRun_char (List.replicate 161 'a') 80
  rw [h81, h80]
  decide

/-- C10 (amended): for non-empty text, the displayed string is always
`text.take idx` (hence a prefix of the text); after `n` ticks the cursor is
`min(n · chunkSize, len)`, so each tick advances it by `chunkSize` except
possibly the final advance; after `N = ⌈len / chunkSize⌉` ticks the full
text is displayed but the animation is not yet complete; `onComplete` fires
exactly once, on tick `N + 1`, and from then on the state is frozen. -/
theorem typewriter_progress (text : List Char) (h : text ≠ []) (n : Nat) :
    ((twRun text n).displayed = text.take (twRun text n).idx) ∧
    ((twRun text n).displayed <+: text) ∧
    ((twRun text n).idx = min (n * chunkSize text.length) text.length) ∧
    ((twRun text (twDisplayTicks text.length)).displayed = text) ∧
    ((twRun text (twDisplayTicks text.length)).done = false) ∧
    ((twRun text (twDisplayTicks text.length)).onCompleteCalls = 0) ∧
    ((twRun text (twDisplayTicks text.length + 1)).done = true) ∧
    ((twRun text (twDisplayTicks text.length + 1)).onCompleteCalls = 1) ∧
    (∀ m : Nat, twDisplayTicks text.length + 1 ≤ m →
      twRun text m = twRun text (twDisplayTicks text.length + 1)) := by
  have hlen : 0 < text.length := List.length_pos.mpr h
  obtain ⟨hN1, hNc, hNlt⟩ := twDisplayTicks_bounds text.length hlen
  obtain ⟨h1, h2, h3, h4⟩ := twRun_char text n
  obtain ⟨g1, g2, g3, g4⟩ := twRun_char text (twDisplayTicks text.length)
  obtain ⟨f1, f2, f3, f4⟩ := twRun_char text (twDisplayTicks text.length + 1)
  have hPN : ¬(0 < twDisplayTicks text.length ∧
      text.length ≤ (twDisplayTicks text.length - 1) * chunkSize text.length) := by
    intro hcon
    omega
  have hPN1 : 0 < twDisplayTicks text.length + 1 ∧
      text.length ≤ (twDisplayTicks text.length + 1 - 1) * chunkSize text.length := by
    constructor
    · omega
    · simpa using hNc
  have hidxN : (twRun text (twDisplayTicks text.length)).idx = text.length := by
    rw [g1, min_eq_right hNc]
  refine ⟨h2, ?_, h1, ?_, ?_, ?_, ?_, ?_, ?_⟩
  · rw [h2]
    exact List.take_prefix _ _
  · rw [g2, hidxN, List.take_length]
  · rw [g3, decide_eq_false hPN]
  · rw [g4, if_neg hPN]
  · rw [f3, decide_eq_true hPN1]
  · rw [f4, if_pos hPN1]
  · exact twRun_frozen text h

/-- Witness for C10 on the concrete text `"ab"`. -/
theorem typewriter_progress_witness :
    ((twRun ['a', 'b'] 1).displayed = List.take (twRun ['a', 'b'] 1).idx ['a', 'b']) ∧
    ((twRun ['a', 'b'] 1).displayed <+: ['a', 'b']) ∧
    ((twRun ['a', 'b'] 1).idx
      = min (1 * chunkSize (['a', 'b'].length)) (['a', 'b'].length)) ∧
    ((twRun ['a', 'b'] (twDisplayTicks (['a', 'b'].length))).displayed = ['a', 'b']) ∧
    ((twRun ['a', 'b'] (twDisplayTicks (['a', 'b'].length))).done = false) ∧
    ((twRun ['a', 'b'] (twDisplayTicks (['a', 'b'].length))).onCompleteCalls = 0) ∧
    ((twRun ['a', 'b'] (twDisplayTicks (['a', 'b'].length) + 1)).done = true) ∧
    ((twRun ['a', 'b'] (twDisplayTicks (['a', 'b'].length) + 1)).onCompleteCalls = 1) ∧
    (∀ m : Nat, twDisplayTicks (['a', 'b'].length) + 1 ≤ m →
      twRun ['a', 'b'] m = twRun ['a', 'b'] (twDisplayTicks (['a', 'b'].length) + 1)) :=
  typewriter_progress ['a', 'b'] (by decide) 1
